import Mathlib

/-!
Verification of the progressive key-estimation session wrapper
(`keyfinder_c.h` / `keyfinder_c.cpp`).

The development shallowly embeds the C wrapper.  The chromagram engine
(`KeyFinder::KeyFinder` together with its `Workspace`) is out of scope per the
design document, so it is modelled as an abstract collaborator: a structure of
possibly-failing operations over an abstract workspace type `W` (a returned
`none` models a thrown C++ exception at the call site).  Machine integers
(`unsigned int`) are modelled as `Nat` with explicit reduction modulo `2 ^ 32`
at every operation that can overflow.  Sample values are only ever copied by
the wrapper (the `float` → `double` cast is injective and no arithmetic is
performed on samples), so they are modelled by a discrete type.
-/

namespace KeyfinderC

/-- Sample values.  The wrapper only moves samples around, so any discrete
type is a faithful model of the `float`/`double` values. -/
abbrev Sample := Int

/-- `2 ^ 32`: modulus of C `unsigned int` arithmetic. -/
def UINT_MOD : Nat := 4294967296

/-- `kf_session::CHUNK_FRAMES` from the source: frames per analysis chunk. -/
def CHUNK_FRAMES : Nat := 16384

/-! ### The `kf_key_t` enumeration

The constants are defined exactly the way the C `enum` assigns them: an
enumerator with an explicit initializer gets that value, every other
enumerator gets the previous value plus one, and the first defaults to `0`.
-/

def KF_A_MAJOR : Nat := 0
def KF_A_MINOR : Nat := KF_A_MAJOR + 1
def KF_B_FLAT_MAJOR : Nat := KF_A_MINOR + 1
def KF_B_FLAT_MINOR : Nat := KF_B_FLAT_MAJOR + 1
def KF_B_MAJOR : Nat := KF_B_FLAT_MINOR + 1
def KF_B_MINOR : Nat := 5
def KF_C_MAJOR : Nat := KF_B_MINOR + 1
def KF_C_MINOR : Nat := KF_C_MAJOR + 1
def KF_D_FLAT_MAJOR : Nat := KF_C_MINOR + 1
def KF_D_FLAT_MINOR : Nat := KF_D_FLAT_MAJOR + 1
def KF_D_MAJOR : Nat := 10
def KF_D_MINOR : Nat := KF_D_MAJOR + 1
def KF_E_FLAT_MAJOR : Nat := KF_D_MINOR + 1
def KF_E_FLAT_MINOR : Nat := KF_E_FLAT_MAJOR + 1
def KF_E_MAJOR : Nat := KF_E_FLAT_MINOR + 1
def KF_E_MINOR : Nat := 15
def KF_F_MAJOR : Nat := KF_E_MINOR + 1
def KF_F_MINOR : Nat := KF_F_MAJOR + 1
def KF_G_FLAT_MAJOR : Nat := KF_F_MINOR + 1
def KF_G_FLAT_MINOR : Nat := KF_G_FLAT_MAJOR + 1
def KF_G_MAJOR : Nat := 20
def KF_G_MINOR : Nat := KF_G_MAJOR + 1
def KF_A_FLAT_MAJOR : Nat := KF_G_MINOR + 1
def KF_A_FLAT_MINOR : Nat := KF_A_FLAT_MAJOR + 1
def KF_SILENCE : Nat := 24

/-! ### The engine boundary -/

/-- A `KeyFinder::AudioData` block as the wrapper builds it: frame rate and
channel count tags, the declared sample count (`addToSampleCount`), and the
sample values written by the `setSample` loop. -/
structure AudioData where
  frameRate : Nat
  channels : Nat
  sampleCount : Nat
  samples : List Sample
deriving DecidableEq

/-- Abstract model of the chromagram engine (`KeyFinder::KeyFinder` acting on
a workspace of type `W`).  Each operation returns `none` to model a thrown
C++ exception at the call site, otherwise the updated workspace (for the
mutating calls) or the computed `KeyFinder::key_t` value (for
`keyOfChromagram`). -/
structure Engine (W : Type) where
  progressiveChromagram : W → AudioData → Option W
  finalChromagram : W → Option W
  keyOfChromagram : W → Option Nat

/-- The `kf_session` struct.  `submitted` is a history variable recording, in
order, every `AudioData` block passed to `progressiveChromagram` (whether or
not the call succeeded); it exists only so that observational properties about
engine submissions can be stated, and no operation ever reads it. -/
structure Session (W : Type) where
  frameRate : Nat
  channels : Nat
  sampleBuffer : List Sample
  bufferedFrames : Nat
  hasData : Bool
  workspace : W
  submitted : List AudioData

/-- The `setSample` copy loop: `audio.setSample(i, sampleBuffer[i])` for
`i < n`.  An index at or past the end of the buffer is an out-of-bounds
`std::vector` read (undefined behaviour in C++); it is modelled as reading a
default value, and the in-bounds predicate below tracks exactly when such a
read happens. -/
def readSamples (n : Nat) (buf : List Sample) : List Sample :=
  (List.range n).map (fun i => buf.getD i 0)

/-- `kf_session_create`: fresh session.  `w0` is the default-constructed
`KeyFinder::Workspace`.  The `reserve` call is a capacity hint with no
observable semantics and is not modelled. -/
def kf_session_create {W : Type} (w0 : W) (frame_rate channels : Nat) : Session W :=
  { frameRate := frame_rate
    channels := channels
    sampleBuffer := []
    bufferedFrames := 0
    hasData := false
    workspace := w0
    submitted := [] }

/-- One iteration of the chunk-drain `while` loop in `kf_session_feed`:
build the `AudioData` block of `CHUNK_FRAMES * channels` samples from the
front of the buffer, submit it to `progressiveChromagram` (setting `hasData`
on success, swallowing failure), then erase the consumed samples and
decrement the frame counter. -/
def drainStep {W : Type} (E : Engine W) (s : Session W) : Session W :=
  let chunkSamples := (CHUNK_FRAMES * s.channels) % UINT_MOD
  let audio : AudioData :=
    { frameRate := s.frameRate
      channels := s.channels
      sampleCount := chunkSamples
      samples := readSamples chunkSamples s.sampleBuffer }
  let res := E.progressiveChromagram s.workspace audio
  { frameRate := s.frameRate
    channels := s.channels
    sampleBuffer := s.sampleBuffer.drop chunkSamples
    bufferedFrames := s.bufferedFrames - CHUNK_FRAMES
    hasData := if res.isSome then true else s.hasData
    workspace := res.getD s.workspace
    submitted := s.submitted ++ [audio] }

/-- The `while (bufferedFrames >= CHUNK_FRAMES)` loop, with explicit fuel.
Every iteration lowers `bufferedFrames` by `CHUNK_FRAMES ≥ 1`, so running the
loop with `fuel = bufferedFrames` is exact: the guard fails before the fuel is
exhausted (`drainLoop_bufferedFrames_submitted` below proves the loop reaches
the guard-failure state `bufferedFrames % CHUNK_FRAMES`). -/
def drainLoop {W : Type} (E : Engine W) : Nat → Session W → Session W
  | 0, s => s
  | fuel + 1, s =>
      if CHUNK_FRAMES ≤ s.bufferedFrames then drainLoop E fuel (drainStep E s) else s

/-- Body of `kf_session_feed` after the guard: append the `sample_count`
values read from the caller's array (the source reads exactly `sample_count`
floats: `frames = sample_count`), add `frames` to the 32-bit counter, then
drain full chunks. -/
def feedImpl {W : Type} (E : Engine W) (s : Session W) (samples : List Sample) :
    Session W :=
  let s1 : Session W :=
    { s with
      sampleBuffer := s.sampleBuffer ++ samples
      bufferedFrames := (s.bufferedFrames + samples.length) % UINT_MOD }
  drainLoop E s1.bufferedFrames s1

/-- A `kf_session_feed` call on a valid session and a non-null sample
pointer: the `sample_count == 0` guard makes the call a no-op, otherwise the
body runs. -/
def feedCall {W : Type} (E : Engine W) (s : Session W) (samples : List Sample) :
    Session W :=
  if samples.length = 0 then s else feedImpl E s samples

/-- `kf_session_feed`.  `none` in the first argument is a null session
handle, `none` in the second a null `samples` pointer; the list plays the
role of the caller's array of exactly `sample_count` floats. -/
def kf_session_feed {W : Type} (E : Engine W) :
    Option (Session W) → Option (List Sample) → Option (Session W)
  | none, _ => none
  | some s, none => some s
  | some s, some samples => some (feedCall E s samples)

/-- `kf_session_get_key`.  Returns the key value together with the session
state after the call (the source performs no write to the session; the
returned state records that). -/
def kf_session_get_key {W : Type} (E : Engine W) :
    Option (Session W) → Nat × Option (Session W)
  | none => (KF_SILENCE, none)
  | some s =>
      if s.hasData = false then (KF_SILENCE, some s)
      else
        match E.keyOfChromagram s.workspace with
        | some key => (key, some s)
        | none => (KF_SILENCE, some s)

/-- `kf_session_finalize`: flush the buffered partial chunk (if any) exactly
as in the source — block of `bufferedFrames * channels` declared samples read
from the buffer front, failure swallowed, then buffer cleared and counter
zeroed — then `finalChromagram` followed by `keyOfChromagram`, returning
`KF_SILENCE` if either throws. -/
def kf_session_finalize {W : Type} (E : Engine W) :
    Option (Session W) → Nat × Option (Session W)
  | none => (KF_SILENCE, none)
  | some s =>
      let s1 : Session W :=
        if 0 < s.bufferedFrames then
          let chunkSamples := (s.bufferedFrames * s.channels) % UINT_MOD
          let audio : AudioData :=
            { frameRate := s.frameRate
              channels := s.channels
              sampleCount := chunkSamples
              samples := readSamples chunkSamples s.sampleBuffer }
          let res := E.progressiveChromagram s.workspace audio
          { frameRate := s.frameRate
            channels := s.channels
            sampleBuffer := []
            bufferedFrames := 0
            hasData := if res.isSome then true else s.hasData
            workspace := res.getD s.workspace
            submitted := s.submitted ++ [audio] }
        else s
      match E.finalChromagram s1.workspace with
      | none => (KF_SILENCE, some s1)
      | some w2 =>
          match E.keyOfChromagram w2 with
          | some key => (key, some { s1 with workspace := w2 })
          | none => (KF_SILENCE, some { s1 with workspace := w2 })

/-- A sequence of `feed` calls on one session (each entry one call's sample
array). -/
def feedAllS {W : Type} (E : Engine W) (s : Session W)
    (feeds : List (List Sample)) : Session W :=
  feeds.foldl (feedCall E) s

/-! ### Concrete engines used to evaluate the model -/

/-- Engine whose calls all succeed, with a trivial workspace. -/
def unitEngine : Engine Unit :=
  { progressiveChromagram := fun _ _ => some ()
    finalChromagram := fun _ => some ()
    keyOfChromagram := fun _ => some 0 }

/-- Engine whose calls all throw. -/
def failEngine : Engine Unit :=
  { progressiveChromagram := fun _ _ => none
    finalChromagram := fun _ => none
    keyOfChromagram := fun _ => none }

/-- Engine whose calls all succeed and that classifies every workspace as the
key value `k`. -/
def keyEngine (k : Nat) : Engine Unit :=
  { progressiveChromagram := fun _ _ => some ()
    finalChromagram := fun _ => some ()
    keyOfChromagram := fun _ => some k }

/-! ### In-bounds predicate for the drain loop

The `while` loop runs exactly `bufferedFrames / CHUNK_FRAMES` iterations
(each iteration subtracts `CHUNK_FRAMES` under the guard
`bufferedFrames ≥ CHUNK_FRAMES`).  Iteration `i` reads `sampleBuffer[j]` for
every `j < chunkSamples` and erases the first `chunkSamples` elements, which
stays inside the vector exactly when `chunkSamples` is at most the current
buffer length. -/

/-- In-bounds check for `n` successive drain iterations on a buffer of
length `len`, each consuming `cs` front elements. -/
def drainInBoundsN : Nat → Nat → Nat → Bool
  | 0, _, _ => true
  | n + 1, len, cs => decide (cs ≤ len) && drainInBoundsN n (len - cs) cs

/-- All `sampleBuffer` accesses of one `kf_session_feed` call's drain loop
are within the buffer. -/
def feedInBounds {W : Type} (s : Session W) (samples : List Sample) : Bool :=
  let bf1 := (s.bufferedFrames + samples.length) % UINT_MOD
  let cs := (CHUNK_FRAMES * s.channels) % UINT_MOD
  drainInBoundsN (bf1 / CHUNK_FRAMES) (s.sampleBuffer.length + samples.length) cs

/-- Equality of all the buffer-bookkeeping state of two sessions: everything
except `hasData` and `workspace` (the only fields whose evolution can depend
on whether an engine call succeeds). -/
def BookEq {W : Type} (s t : Session W) : Prop :=
  s.frameRate = t.frameRate ∧ s.channels = t.channels ∧
  s.sampleBuffer = t.sampleBuffer ∧ s.bufferedFrames = t.bufferedFrames ∧
  s.submitted = t.submitted

/-! ### Basic lemmas about the drain loop -/

theorem drainLoop_of_lt {W : Type} (E : Engine W) (fuel : Nat) (s : Session W)
    (h : s.bufferedFrames < CHUNK_FRAMES) : drainLoop E fuel s = s := by
  cases fuel with
  | zero => rfl
  | succ fuel => simp [drainLoop, Nat.not_le.mpr h]

theorem drainLoop_succ_of_ge {W : Type} (E : Engine W) (fuel : Nat) (s : Session W)
    (h : CHUNK_FRAMES ≤ s.bufferedFrames) :
    drainLoop E (fuel + 1) s = drainLoop E fuel (drainStep E s) := by
  simp [drainLoop, h]

/-- With enough fuel (each iteration burns one unit of fuel and `CHUNK_FRAMES
≥ 1` frames, so `bufferedFrames` units suffice), the drain loop leaves
`bufferedFrames % CHUNK_FRAMES` frames and performs exactly
`bufferedFrames / CHUNK_FRAMES` engine submissions. -/
theorem drainLoop_bufferedFrames_submitted {W : Type} (E : Engine W) (fuel : Nat) :
    ∀ s : Session W, s.bufferedFrames ≤ fuel →
      (drainLoop E fuel s).bufferedFrames = s.bufferedFrames % CHUNK_FRAMES ∧
      (drainLoop E fuel s).submitted.length =
        s.submitted.length + s.bufferedFrames / CHUNK_FRAMES := by
  have hC : CHUNK_FRAMES = 16384 := rfl
  induction fuel with
  | zero =>
      intro s h
      have h0 : s.bufferedFrames = 0 := Nat.le_zero.mp h
      simp [drainLoop, h0, hC]
  | succ fuel ih =>
      intro s h
      by_cases hg : CHUNK_FRAMES ≤ s.bufferedFrames
      · rw [drainLoop_succ_of_ge E fuel s hg]
        have hstep_bf : (drainStep E s).bufferedFrames =
            s.bufferedFrames - CHUNK_FRAMES := rfl
        have hstep_sub : (drainStep E s).submitted.length =
            s.submitted.length + 1 := by
          simp [drainStep]
        have hle : (drainStep E s).bufferedFrames ≤ fuel := by
          rw [hstep_bf]; rw [hC] at hg ⊢; omega
        obtain ⟨h1, h2⟩ := ih (drainStep E s) hle
        constructor
        · rw [h1, hstep_bf]; rw [hC] at hg ⊢; omega
        · rw [h2, hstep_sub, hstep_bf]; rw [hC] at hg ⊢; omega
      · rw [drainLoop_of_lt E (fuel + 1) s (Nat.not_le.mp hg)]
        have hlt : s.bufferedFrames < CHUNK_FRAMES := Nat.not_le.mp hg
        rw [hC] at hlt ⊢
        constructor
        · omega
        · omega

/-- The drain step's buffer bookkeeping does not depend on the engine nor on
the outcome of the engine call. -/
theorem drainStep_bookEq {W : Type} (E F : Engine W) (s t : Session W)
    (h : BookEq s t) : BookEq (drainStep E s) (drainStep F t) := by
  obtain ⟨h1, h2, h3, h4, h5⟩ := h
  refine ⟨?_, ?_, ?_, ?_, ?_⟩ <;> simp [drainStep, h1, h2, h3, h4, h5]

/-- The whole drain loop's buffer bookkeeping does not depend on the engine
nor on the outcomes of the engine calls. -/
theorem drainLoop_bookEq {W : Type} (E F : Engine W) (fuel : Nat) :
    ∀ s t : Session W, BookEq s t →
      BookEq (drainLoop E fuel s) (drainLoop F fuel t) := by
  induction fuel with
  | zero => intro s t h; exact h
  | succ fuel ih =>
      intro s t h
      have hbf : s.bufferedFrames = t.bufferedFrames := h.2.2.2.1
      by_cases hg : CHUNK_FRAMES ≤ s.bufferedFrames
      · rw [drainLoop_succ_of_ge E fuel s hg,
            drainLoop_succ_of_ge F fuel t (hbf ▸ hg)]
        exact ih _ _ (drainStep_bookEq E F s t h)
      · rw [drainLoop_of_lt E (fuel + 1) s (Nat.not_le.mp hg),
            drainLoop_of_lt F (fuel + 1) t (hbf ▸ Nat.not_le.mp hg)]
        exact h

/-- If every engine submission fails, the drain loop never sets `hasData`. -/
theorem drainLoop_hasData_of_fail {W : Type} (E : Engine W)
    (hE : ∀ w b, E.progressiveChromagram w b = none) (fuel : Nat) :
    ∀ s : Session W, (drainLoop E fuel s).hasData = s.hasData := by
  induction fuel with
  | zero => intro s; rfl
  | succ fuel ih =>
      intro s
      by_cases hg : CHUNK_FRAMES ≤ s.bufferedFrames
      · rw [drainLoop_succ_of_ge E fuel s hg, ih]
        simp [drainStep, hE]
      · rw [drainLoop_of_lt E (fuel + 1) s (Nat.not_le.mp hg)]

theorem feedAllS_nil {W : Type} (E : Engine W) (s : Session W) :
    feedAllS E s [] = s := rfl

theorem feedAllS_cons {W : Type} (E : Engine W) (s : Session W)
    (l : List Sample) (feeds : List (List Sample)) :
    feedAllS E s (l :: feeds) = feedAllS E (feedCall E s l) feeds := rfl

/-- Main bookkeeping invariant of a run of `feed` calls starting below one
chunk: the counter stays below `CHUNK_FRAMES`, equals the total frame count
modulo `CHUNK_FRAMES` (this survives even 32-bit wraparound of the counter,
because `CHUNK_FRAMES` divides `2 ^ 32`), and — provided no call is large
enough to wrap the 32-bit counter — the number of engine submissions is the
total frame count divided by `CHUNK_FRAMES`. -/
theorem feedAllS_invariant {W : Type} (E : Engine W) :
    ∀ (feeds : List (List Sample)) (s : Session W),
      s.bufferedFrames < CHUNK_FRAMES →
      (feedAllS E s feeds).bufferedFrames =
          (s.bufferedFrames + (feeds.map List.length).sum) % CHUNK_FRAMES ∧
      (feedAllS E s feeds).bufferedFrames < CHUNK_FRAMES ∧
      ((∀ l ∈ feeds, l.length ≤ UINT_MOD - CHUNK_FRAMES) →
        (feedAllS E s feeds).submitted.length =
          s.submitted.length +
            (s.bufferedFrames + (feeds.map List.length).sum) / CHUNK_FRAMES) := by
  have hC : CHUNK_FRAMES = 16384 := rfl
  have hM : UINT_MOD = 4294967296 := rfl
  intro feeds
  induction feeds with
  | nil =>
      intro s hs
      rw [hC] at hs ⊢
      refine ⟨by simpa using (Nat.mod_eq_of_lt hs).symm, by simpa using hs, ?_⟩
      intro _
      simp [feedAllS_nil]
      omega
  | cons l feeds ih =>
      intro s hs
      rw [feedAllS_cons]
      by_cases hl : l.length = 0
      · obtain ⟨i1, i2, i3⟩ := ih s hs
        have hcall : feedCall E s l = s := by simp [feedCall, hl]
        rw [hcall]
        refine ⟨by simpa [hl] using i1, i2, ?_⟩
        intro hbnd
        have := i3 (fun x hx => hbnd x (List.mem_cons_of_mem l hx))
        simpa [hl] using this
      · have hcall : feedCall E s l = feedImpl E s l := by simp [feedCall, hl]
        rw [hcall]
        set s1 : Session W :=
          { s with
            sampleBuffer := s.sampleBuffer ++ l
            bufferedFrames := (s.bufferedFrames + l.length) % UINT_MOD } with hs1
        have himpl : feedImpl E s l = drainLoop E s1.bufferedFrames s1 := rfl
        rw [himpl]
        obtain ⟨d1, d2⟩ :=
          drainLoop_bufferedFrames_submitted E s1.bufferedFrames s1 (Nat.le_refl _)
        have hlt : (drainLoop E s1.bufferedFrames s1).bufferedFrames < CHUNK_FRAMES := by
          rw [d1, hC]; omega
        obtain ⟨i1, i2, i3⟩ := ih (drainLoop E s1.bufferedFrames s1) hlt
        refine ⟨?_, i2, ?_⟩
        · rw [i1, d1]
          have hb1 : s1.bufferedFrames = (s.bufferedFrames + l.length) % UINT_MOD := rfl
          rw [hb1]
          simp only [List.map_cons, List.sum_cons]
          rw [hC, hM]
          omega
        · intro hbnd
          have hrest := i3 (fun x hx => hbnd x (List.mem_cons_of_mem l hx))
          have hlbnd : l.length ≤ UINT_MOD - CHUNK_FRAMES :=
            hbnd l (List.mem_cons_self l feeds)
          have hnw : s.bufferedFrames + l.length < UINT_MOD := by
            rw [hM, hC] at hlbnd; rw [hC] at hs; rw [hM]; omega
          have hb1 : s1.bufferedFrames = s.bufferedFrames + l.length :=
            Nat.mod_eq_of_lt hnw
          have hsub1 : s1.submitted = s.submitted := rfl
          rw [hrest, d1, d2, hb1, hsub1]
          simp only [List.map_cons, List.sum_cons]
          rw [hC] at hs ⊢
          omega

/-- A feed call whose appended samples leave the 32-bit counter below one
chunk performs no drain iteration. -/
theorem feedCall_no_drain {W : Type} (E : Engine W) (s : Session W)
    (l : List Sample) (h0 : l.length ≠ 0)
    (hlt : (s.bufferedFrames + l.length) % UINT_MOD < CHUNK_FRAMES) :
    feedCall E s l =
      { s with
        sampleBuffer := s.sampleBuffer ++ l
        bufferedFrames := (s.bufferedFrames + l.length) % UINT_MOD } := by
  rw [feedCall, if_neg h0, feedImpl]
  exact drainLoop_of_lt E _ _ hlt

/-- Claim C3 (amended): for any sequence of feed calls with total frame count
F, after every call `bufferedFrames < CHUNK_FRAMES` and
`bufferedFrames = F % CHUNK_FRAMES`; and — provided no single call passes
more than `2^32 - CHUNK_FRAMES` frames, which would wrap the 32-bit counter —
the total number of engine submissions is `F / CHUNK_FRAMES`. -/
theorem feed_counter_mod_and_submissions {W : Type} (E : Engine W) (w0 : W)
    (r c : Nat) (feeds : List (List Sample)) :
    (feedAllS E (kf_session_create w0 r c) feeds).bufferedFrames < CHUNK_FRAMES ∧
    (feedAllS E (kf_session_create w0 r c) feeds).bufferedFrames =
      (feeds.map List.length).sum % CHUNK_FRAMES ∧
    ((∀ l ∈ feeds, l.length ≤ UINT_MOD - CHUNK_FRAMES) →
      (feedAllS E (kf_session_create w0 r c) feeds).submitted.length =
        (feeds.map List.length).sum / CHUNK_FRAMES) := by
  obtain ⟨h1, h2, h3⟩ :=
    feedAllS_invariant E feeds (kf_session_create w0 r c)
      (by show (0 : Nat) < CHUNK_FRAMES; decide)
  refine ⟨h2, by simpa [kf_session_create] using h1,
    fun hbnd => by simpa [kf_session_create] using h3 hbnd⟩

theorem feed_counter_mod_and_submissions_witness :
    (feedAllS unitEngine (kf_session_create () 44100 1) [[0]]).bufferedFrames <
      CHUNK_FRAMES ∧
    (feedAllS unitEngine (kf_session_create () 44100 1) [[0]]).bufferedFrames =
      (([[0]] : List (List Sample)).map List.length).sum % CHUNK_FRAMES ∧
    (feedAllS unitEngine (kf_session_create () 44100 1) [[0]]).submitted.length =
      (([[0]] : List (List Sample)).map List.length).sum / CHUNK_FRAMES := by
  obtain ⟨h1, h2, h3⟩ := feed_counter_mod_and_submissions unitEngine () 44100 1 [[0]]
  exact ⟨h1, h2, h3 (by decide)⟩

/-- Claim C3 counterexample: starting from 16000 buffered frames, one feed
call of `2^32 - 15000` frames wraps the 32-bit counter to 1000, so the drain
loop never runs: zero submissions are made although
`floor(F / CHUNK_FRAMES) = 262144` for the total `F = 16000 + (2^32 - 15000)`. -/
theorem feed_submission_count_wrap_counterexample :
    (feedCall unitEngine
        (feedCall unitEngine (kf_session_create () 44100 1) (List.replicate 16000 0))
        (List.replicate (UINT_MOD - 15000) 0)).submitted.length ≠
      ((List.replicate 16000 (0 : Sample)).length +
        (List.replicate (UINT_MOD - 15000) (0 : Sample)).length) / CHUNK_FRAMES := by
  have h16000 : (List.replicate 16000 (0 : Sample)).length = 16000 :=
    List.length_replicate 16000 0
  have hbig : (List.replicate (UINT_MOD - 15000) (0 : Sample)).length =
      UINT_MOD - 15000 := List.length_replicate (UINT_MOD - 15000) 0
  have hcreate_bf : (kf_session_create (W := Unit) () 44100 1).bufferedFrames = 0 := rfl
  have hcreate_sub : (kf_session_create (W := Unit) () 44100 1).submitted = [] := rfl
  have h0a : (List.replicate 16000 (0 : Sample)).length ≠ 0 := by
    rw [h16000]; norm_num
  have hlta : ((kf_session_create (W := Unit) () 44100 1).bufferedFrames +
      (List.replicate 16000 (0 : Sample)).length) % UINT_MOD < CHUNK_FRAMES := by
    rw [h16000, hcreate_bf]; norm_num [UINT_MOD, CHUNK_FRAMES]
  have hbf1 : (feedCall unitEngine (kf_session_create () 44100 1)
      (List.replicate 16000 0)).bufferedFrames = 16000 := by
    rw [feedCall_no_drain unitEngine (kf_session_create () 44100 1)
      (List.replicate 16000 0) h0a hlta]
    show ((kf_session_create (W := Unit) () 44100 1).bufferedFrames +
      (List.replicate 16000 (0 : Sample)).length) % UINT_MOD = 16000
    rw [h16000, hcreate_bf]; norm_num [UINT_MOD]
  have hsub1 : (feedCall unitEngine (kf_session_create () 44100 1)
      (List.replicate 16000 0)).submitted = [] := by
    rw [feedCall_no_drain unitEngine (kf_session_create () 44100 1)
      (List.replicate 16000 0) h0a hlta]
    exact hcreate_sub
  have h0b : (List.replicate (UINT_MOD - 15000) (0 : Sample)).length ≠ 0 := by
    rw [hbig]; norm_num [UINT_MOD]
  have hltb : ((feedCall unitEngine (kf_session_create () 44100 1)
      (List.replicate 16000 0)).bufferedFrames +
      (List.replicate (UINT_MOD - 15000) (0 : Sample)).length) % UINT_MOD <
      CHUNK_FRAMES := by
    rw [hbig, hbf1]; norm_num [UINT_MOD, CHUNK_FRAMES]
  have hsub2 : (feedCall unitEngine
      (feedCall unitEngine (kf_session_create () 44100 1) (List.replicate 16000 0))
      (List.replicate (UINT_MOD - 15000) 0)).submitted =
      (feedCall unitEngine (kf_session_create () 44100 1)
        (List.replicate 16000 0)).submitted := by
    rw [feedCall_no_drain unitEngine _ (List.replicate (UINT_MOD - 15000) 0) h0b hltb]
  rw [hsub2, hsub1, h16000, hbig]
  simp only [List.length_nil]
  norm_num [UINT_MOD, CHUNK_FRAMES]

/-- Claim C1 fails on the code: on a 2-channel session, feeding one frame
appends one sample (not `frameCount * channelCount = 2`), so afterwards
`bufferedFrames * channels = 2` while the buffer holds 1 sample. -/
theorem feed_breaks_buffer_invariant_stereo :
    (feedCall unitEngine (kf_session_create () 44100 2) [0]).bufferedFrames *
        (feedCall unitEngine (kf_session_create () 44100 2) [0]).channels ≠
      (feedCall unitEngine (kf_session_create () 44100 2) [0]).sampleBuffer.length := by
  have h := feedCall_no_drain unitEngine (kf_session_create () 44100 2) [0]
    (by simp) (by simp [kf_session_create, UINT_MOD, CHUNK_FRAMES])
  rw [h]
  simp [kf_session_create, UINT_MOD]

/-- Claim C2 fails on the code: on a 2-channel session, feeding 16384 frames
makes the drain loop run once with a 16384-sample buffer while it reads (and
then erases) `CHUNK_FRAMES * channels = 32768` front elements — out of
bounds. -/
theorem feed_drain_reads_out_of_bounds_stereo :
    feedInBounds (kf_session_create () 44100 2) (List.replicate 16384 0) = false := by
  have h : (List.replicate 16384 (0 : Sample)).length = 16384 :=
    List.length_replicate 16384 0
  simp only [feedInBounds, h, kf_session_create]
  decide

/-! ### Projection lemmas for one drain iteration -/

theorem drainStep_frameRate {W : Type} (E : Engine W) (s : Session W) :
    (drainStep E s).frameRate = s.frameRate := rfl

theorem drainStep_channels {W : Type} (E : Engine W) (s : Session W) :
    (drainStep E s).channels = s.channels := rfl

theorem drainStep_bufferedFrames {W : Type} (E : Engine W) (s : Session W) :
    (drainStep E s).bufferedFrames = s.bufferedFrames - CHUNK_FRAMES := rfl

theorem drainStep_sampleBuffer {W : Type} (E : Engine W) (s : Session W) :
    (drainStep E s).sampleBuffer =
      s.sampleBuffer.drop ((CHUNK_FRAMES * s.channels) % UINT_MOD) := rfl

theorem drainStep_submitted {W : Type} (E : Engine W) (s : Session W) :
    (drainStep E s).submitted = s.submitted ++
      [{ frameRate := s.frameRate, channels := s.channels,
         sampleCount := (CHUNK_FRAMES * s.channels) % UINT_MOD,
         samples := readSamples ((CHUNK_FRAMES * s.channels) % UINT_MOD)
           s.sampleBuffer }] := rfl

theorem drainLoop_step_literal {W : Type} (E : Engine W) (fuel : Nat)
    (s : Session W) (hg : CHUNK_FRAMES ≤ s.bufferedFrames) (hf : fuel ≠ 0) :
    drainLoop E fuel s = drainLoop E (fuel - 1) (drainStep E s) := by
  cases fuel with
  | zero => exact absurd rfl hf
  | succ n => rw [drainLoop_succ_of_ge E n s hg, Nat.succ_sub_one]

/-- A feed call on a non-empty sample list, before the drain loop runs. -/
theorem feedCall_eq_drain {W : Type} (E : Engine W) (s : Session W)
    (l : List Sample) (h0 : l.length ≠ 0) :
    feedCall E s l = drainLoop E ((s.bufferedFrames + l.length) % UINT_MOD)
      { s with
        sampleBuffer := s.sampleBuffer ++ l
        bufferedFrames := (s.bufferedFrames + l.length) % UINT_MOD } := by
  rw [feedCall, if_neg h0]; rfl

/-- A feed call that starts on an empty frame counter and supplies between
one and just under two chunks' worth of frames performs exactly one drain
iteration. -/
theorem feedCall_one_drain {W : Type} (E : Engine W) (s : Session W)
    (l : List Sample) (hbf0 : s.bufferedFrames = 0)
    (hlen : CHUNK_FRAMES ≤ l.length) (hlen2 : l.length < 2 * CHUNK_FRAMES) :
    feedCall E s l = drainStep E
      { s with sampleBuffer := s.sampleBuffer ++ l, bufferedFrames := l.length } := by
  have hC : CHUNK_FRAMES = 16384 := rfl
  have h0 : l.length ≠ 0 := by rw [hC] at hlen; omega
  have hmod : (s.bufferedFrames + l.length) % UINT_MOD = l.length := by
    rw [hbf0, Nat.zero_add]
    exact Nat.mod_eq_of_lt (by rw [hC] at hlen2; show l.length < 4294967296; omega)
  rw [feedCall_eq_drain E s l h0, hmod]
  rw [drainLoop_step_literal E l.length _
    (show CHUNK_FRAMES ≤
        ({ s with
            sampleBuffer := s.sampleBuffer ++ l,
            bufferedFrames := l.length } : Session W).bufferedFrames
      from hlen)
    (by rw [hC] at hlen; omega)]
  apply drainLoop_of_lt
  rw [drainStep_bufferedFrames]
  show l.length - CHUNK_FRAMES < CHUNK_FRAMES
  rw [hC] at hlen2 ⊢
  omega

/-- The frame counter left by a one-drain feed call. -/
theorem feedCall_one_drain_bufferedFrames {W : Type} (E : Engine W)
    (s : Session W) (l : List Sample) (hbf0 : s.bufferedFrames = 0)
    (hlen : CHUNK_FRAMES ≤ l.length) (hlen2 : l.length < 2 * CHUNK_FRAMES) :
    (feedCall E s l).bufferedFrames = l.length - CHUNK_FRAMES := by
  rw [feedCall_one_drain E s l hbf0 hlen hlen2, drainStep_bufferedFrames]

/-- A feed call that performs no drain iteration leaves the submission
record unchanged. -/
theorem feedCall_no_drain_submitted {W : Type} (E : Engine W) (s : Session W)
    (l : List Sample) (h0 : l.length ≠ 0)
    (hlt : (s.bufferedFrames + l.length) % UINT_MOD < CHUNK_FRAMES) :
    (feedCall E s l).submitted = s.submitted := by
  rw [feedCall_no_drain E s l h0 hlt]

/-! ### Reading samples out of the buffer -/

theorem readSamples_length (n : Nat) (buf : List Sample) :
    (readSamples n buf).length = n := by
  simp [readSamples]

theorem readSamples_getD (n : Nat) (buf : List Sample) (i : Nat) (d : Sample)
    (h : i < n) : (readSamples n buf).getD i d = buf.getD i 0 := by
  simp [readSamples, List.getD_eq_getElem?_getD, List.getElem?_map,
    List.getElem?_range, h]

/-- Claim C9: the public key enumeration carries exactly the fixed numbering
0 = A major through 23 = A-flat minor, with 24 the silence sentinel. -/
theorem kf_key_enum_values :
    KF_A_MAJOR = 0 ∧ KF_A_MINOR = 1 ∧ KF_B_FLAT_MAJOR = 2 ∧ KF_B_FLAT_MINOR = 3 ∧
    KF_B_MAJOR = 4 ∧ KF_B_MINOR = 5 ∧ KF_C_MAJOR = 6 ∧ KF_C_MINOR = 7 ∧
    KF_D_FLAT_MAJOR = 8 ∧ KF_D_FLAT_MINOR = 9 ∧ KF_D_MAJOR = 10 ∧ KF_D_MINOR = 11 ∧
    KF_E_FLAT_MAJOR = 12 ∧ KF_E_FLAT_MINOR = 13 ∧ KF_E_MAJOR = 14 ∧ KF_E_MINOR = 15 ∧
    KF_F_MAJOR = 16 ∧ KF_F_MINOR = 17 ∧ KF_G_FLAT_MAJOR = 18 ∧ KF_G_FLAT_MINOR = 19 ∧
    KF_G_MAJOR = 20 ∧ KF_G_MINOR = 21 ∧ KF_A_FLAT_MAJOR = 22 ∧ KF_A_FLAT_MINOR = 23 ∧
    KF_SILENCE = 24 := by
  decide

/-- Claim C7: feed with a null handle, a null sample pointer, or a zero
sample count is a complete no-op; the buffer bookkeeping (frame rate,
channels, buffer contents, frame counter, and the submission record) of a
feed call is identical for any two engines — in particular identical whether
every engine submission succeeds or fails — and when every submission fails,
`hasData` is left unchanged. -/
theorem feed_noop_and_failure_swallowing {W : Type} (E F : Engine W) :
    (∀ x : Option (List Sample), kf_session_feed E none x = none) ∧
    (∀ s : Session W, kf_session_feed E (some s) none = some s) ∧
    (∀ (s : Session W) (l : List Sample), l.length = 0 →
      kf_session_feed E (some s) (some l) = some s) ∧
    (∀ (s : Session W) (l : List Sample),
      BookEq (feedCall E s l) (feedCall F s l)) ∧
    ((∀ w b, E.progressiveChromagram w b = none) →
      ∀ (s : Session W) (l : List Sample), (feedCall E s l).hasData = s.hasData) := by
  refine ⟨fun x => rfl, fun s => rfl, ?_, ?_, ?_⟩
  · intro s l h
    simp [kf_session_feed, feedCall, h]
  · intro s l
    by_cases h : l.length = 0
    · simp only [feedCall, if_pos h]
      exact ⟨rfl, rfl, rfl, rfl, rfl⟩
    · simp only [feedCall, if_neg h, feedImpl]
      exact drainLoop_bookEq E F _ _ _ ⟨rfl, rfl, rfl, rfl, rfl⟩
  · intro hE s l
    by_cases h : l.length = 0
    · simp only [feedCall, if_pos h]
    · simp only [feedCall, if_neg h, feedImpl]
      rw [drainLoop_hasData_of_fail E hE]

theorem feed_noop_and_failure_swallowing_witness :
    kf_session_feed failEngine (some (kf_session_create () 44100 1)) (some []) =
      some (kf_session_create () 44100 1) ∧
    (feedCall failEngine (kf_session_create () 44100 1) [1, 2]).hasData =
      (kf_session_create () 44100 1).hasData := by
  constructor
  · exact (feed_noop_and_failure_swallowing failEngine failEngine).2.2.1
      (kf_session_create () 44100 1) [] rfl
  · exact (feed_noop_and_failure_swallowing failEngine failEngine).2.2.2.2
      (fun _ _ => rfl) (kf_session_create () 44100 1) [1, 2]

/-- Claim C6: `kf_session_get_key` returns the silence sentinel on a null
handle, and whenever `hasData` is false — without consulting the engine (the
result agrees for any two engines) — in particular on a freshly created
session; it returns silence when the engine's classification throws, and
otherwise the engine's key value (the enum cast is the identity on values). -/
theorem get_key_guards_and_mapping {W : Type} (E F : Engine W) :
    kf_session_get_key E none = (KF_SILENCE, none) ∧
    (∀ s : Session W, s.hasData = false →
      kf_session_get_key E (some s) = (KF_SILENCE, some s)) ∧
    (∀ s : Session W, s.hasData = false →
      kf_session_get_key E (some s) = kf_session_get_key F (some s)) ∧
    (∀ s : Session W, s.hasData = true → E.keyOfChromagram s.workspace = none →
      kf_session_get_key E (some s) = (KF_SILENCE, some s)) ∧
    (∀ (s : Session W) (k : Nat), s.hasData = true →
      E.keyOfChromagram s.workspace = some k →
      kf_session_get_key E (some s) = (k, some s)) ∧
    (∀ (w0 : W) (r c : Nat),
      kf_session_get_key E (some (kf_session_create w0 r c)) =
        (KF_SILENCE, some (kf_session_create w0 r c))) := by
  refine ⟨rfl, ?_, ?_, ?_, ?_, ?_⟩
  · intro s h; simp [kf_session_get_key, h]
  · intro s h; simp [kf_session_get_key, h]
  · intro s h hk; simp [kf_session_get_key, h, hk]
  · intro s k h hk; simp [kf_session_get_key, h, hk]
  · intro w0 r c
    simp [kf_session_get_key, kf_session_create]

theorem get_key_guards_and_mapping_witness :
    kf_session_get_key failEngine (some (kf_session_create () 44100 2)) =
      (KF_SILENCE, some (kf_session_create () 44100 2)) ∧
    kf_session_get_key (keyEngine 5)
        (some { kf_session_create () 44100 2 with hasData := true }) =
      (5, some { kf_session_create () 44100 2 with hasData := true }) ∧
    kf_session_get_key failEngine
        (some { kf_session_create () 44100 2 with hasData := true }) =
      (KF_SILENCE, some { kf_session_create () 44100 2 with hasData := true }) := by
  refine ⟨?_, ?_, ?_⟩
  · exact (get_key_guards_and_mapping failEngine failEngine).2.2.2.2.2 () 44100 2
  · exact (get_key_guards_and_mapping (keyEngine 5) (keyEngine 5)).2.2.2.2.1
      _ 5 rfl rfl
  · exact (get_key_guards_and_mapping failEngine failEngine).2.2.2.1 _ rfl rfl

/-- Claim C8: `kf_session_get_key` is side-effect-free — it returns the
session state unchanged (hence `sampleBuffer`, `bufferedFrames`, `hasData`,
`frameRate` and `channels` are all preserved) — and idempotent: a second
consecutive call returns the same key. -/
theorem get_key_pure_and_idempotent {W : Type} (E : Engine W)
    (s : Option (Session W)) :
    (kf_session_get_key E s).2 = s ∧
    (kf_session_get_key E (kf_session_get_key E s).2).1 =
      (kf_session_get_key E s).1 := by
  cases s with
  | none => exact ⟨rfl, rfl⟩
  | some s =>
      by_cases h : s.hasData = false
      · simp [kf_session_get_key, h]
      · cases hk : E.keyOfChromagram s.workspace <;>
          simp [kf_session_get_key, h, hk]

/-- Claim C10: unlike `kf_session_get_key`, `kf_session_finalize` has no
`hasData` guard: on a valid session where no chunk was ever submitted
(`hasData` false, nothing buffered — e.g. freshly created), it still invokes
the engine's close-window (`finalChromagram`) and classification
(`keyOfChromagram`) steps and returns their composition — silence exactly
when one of them fails — while `kf_session_get_key` short-circuits to
silence. -/
theorem finalize_no_hasdata_guard {W : Type} (E : Engine W) (s : Session W)
    (hbf : s.bufferedFrames = 0) (hhd : s.hasData = false) :
    (kf_session_finalize E (some s)).1 =
      (match E.finalChromagram s.workspace with
       | none => KF_SILENCE
       | some w2 =>
           match E.keyOfChromagram w2 with
           | none => KF_SILENCE
           | some key => key) ∧
    (kf_session_get_key E (some s)).1 = KF_SILENCE := by
  constructor
  · simp only [kf_session_finalize, hbf, Nat.lt_irrefl, if_false]
    cases hf : E.finalChromagram s.workspace with
    | none => simp [hf]
    | some w2 => cases hk : E.keyOfChromagram w2 <;> simp [hf, hk]
  · simp [kf_session_get_key, hhd]

theorem finalize_no_hasdata_guard_witness :
    (kf_session_finalize (keyEngine 5) (some (kf_session_create () 44100 1))).1 = 5 ∧
    (kf_session_get_key (keyEngine 5) (some (kf_session_create () 44100 1))).1 =
      KF_SILENCE := by
  obtain ⟨h1, h2⟩ := finalize_no_hasdata_guard (keyEngine 5)
    (kf_session_create () 44100 1) rfl rfl
  exact ⟨by rw [h1]; rfl, h2⟩

/-- Claim C4 fails on the code: on a 2-channel session, feeding 24576 frames
in one call versus splitting them into 16384 + 8192 yields different
submitted chunk contents.  The single feed's chunk is built over a
24576-sample buffer and carries the value 1 at flat index 16384, whereas the
split run's chunk was built when only 16384 samples were buffered, so index
16384 was an out-of-bounds read (modelled as the default 0).  For
channelCount = 1 no such divergence exists, but the claim quantifies over
every session. -/
theorem feed_chunk_boundary_dependence_stereo :
    (feedCall unitEngine (kf_session_create () 44100 2)
        (List.replicate 16384 0 ++ List.replicate 8192 1)).submitted ≠
      (feedCall unitEngine
        (feedCall unitEngine (kf_session_create () 44100 2)
          (List.replicate 16384 0))
        (List.replicate 8192 1)).submitted := by
  have hlenA : (List.replicate 16384 (0 : Sample) ++
      List.replicate 8192 (1 : Sample)).length = 24576 := by
    rw [List.length_append, List.length_replicate, List.length_replicate]
  have hA := feedCall_one_drain unitEngine (kf_session_create () 44100 2)
    (List.replicate 16384 0 ++ List.replicate 8192 1) rfl
    (by rw [hlenA]; decide) (by rw [hlenA]; decide)
  have hB1 := feedCall_one_drain unitEngine (kf_session_create () 44100 2)
    (List.replicate 16384 0) rfl
    (by rw [List.length_replicate]; decide)
    (by rw [List.length_replicate]; decide)
  have hbfB : (feedCall unitEngine (kf_session_create () 44100 2)
      (List.replicate 16384 0)).bufferedFrames = 0 := by
    rw [feedCall_one_drain_bufferedFrames unitEngine (kf_session_create () 44100 2)
      (List.replicate 16384 0) rfl
      (by rw [List.length_replicate]; decide)
      (by rw [List.length_replicate]; decide)]
    rw [List.length_replicate]
    decide
  have h0c1 : (List.replicate 8192 (1 : Sample)).length ≠ 0 := by
    rw [List.length_replicate]; norm_num
  have hltB : ((feedCall unitEngine (kf_session_create () 44100 2)
        (List.replicate 16384 0)).bufferedFrames +
      (List.replicate 8192 (1 : Sample)).length) % UINT_MOD < CHUNK_FRAMES := by
    rw [hbfB, List.length_replicate]
    norm_num [UINT_MOD, CHUNK_FRAMES]
  have hcs : (CHUNK_FRAMES * 2) % UINT_MOD = 32768 := by
    norm_num [CHUNK_FRAMES, UINT_MOD]
  have hgA : (readSamples 32768 (List.replicate 16384 (0 : Sample) ++
      List.replicate 8192 1)).getD 16384 0 = 1 := by
    rw [readSamples_getD 32768 _ 16384 0 (by norm_num)]
    rw [List.getD_eq_getElem?_getD,
        List.getElem?_append_right (le_of_eq (List.length_replicate 16384 0))]
    rw [List.length_replicate, Nat.sub_self, List.getElem?_replicate]
    rfl
  have hgB : (readSamples 32768 (List.replicate 16384 (0 : Sample))).getD
      16384 0 = 0 := by
    rw [readSamples_getD 32768 _ 16384 0 (by norm_num)]
    rw [List.getD_eq_getElem?_getD, List.getElem?_replicate]
    rfl
  rw [feedCall_no_drain_submitted unitEngine _ _ h0c1 hltB, hA, hB1]
  simp only [drainStep_submitted]
  simp only [kf_session_create, List.nil_append, hcs]
  intro h
  have h4 := congrArg (List.map (fun b => b.samples.getD 16384 (0 : Sample))) h
  simp only [List.map_cons, List.map_nil] at h4
  rw [hgA, hgB] at h4
  exact absurd h4 (by decide)

/-- Claim C5 fails on the code: on a 2-channel session holding 100 buffered
frames (100 buffered samples), finalize builds the final block with
`bufferedFrames * channels = 200` declared samples, reading
`sampleBuffer[100..199]` past the end of the buffer (undefined behaviour in
the C++, modelled as default reads) — so the submitted final block is not
the buffered partial chunk.  The evaluated result also shows the buffer
cleared, the counter zeroed, and the close-window/classify sequence
returning the engine's key. -/
theorem finalize_partial_block_mismatch_stereo :
    feedCall unitEngine (kf_session_create () 44100 2) (List.replicate 100 0) =
      ({ frameRate := 44100, channels := 2,
         sampleBuffer := List.replicate 100 0, bufferedFrames := 100,
         hasData := false, workspace := (), submitted := [] } : Session Unit) ∧
    kf_session_finalize unitEngine
        (some ({ frameRate := 44100, channels := 2,
                 sampleBuffer := List.replicate 100 0, bufferedFrames := 100,
                 hasData := false, workspace := (),
                 submitted := [] } : Session Unit)) =
      (KF_A_MAJOR, some
        { frameRate := 44100, channels := 2, sampleBuffer := [],
          bufferedFrames := 0, hasData := true, workspace := (),
          submitted := [{ frameRate := 44100, channels := 2, sampleCount := 200,
                          samples := readSamples 200 (List.replicate 100 0) }] }) ∧
    (readSamples 200 (List.replicate 100 (0 : Sample))).length = 200 ∧
    (List.replicate 100 (0 : Sample)).length = 100 := by
  refine ⟨?_, ?_, readSamples_length 200 _, List.length_replicate 100 0⟩
  · rw [feedCall_no_drain unitEngine (kf_session_create () 44100 2)
      (List.replicate 100 0)
      (by rw [List.length_replicate]; norm_num)
      (by rw [List.length_replicate]
          show ((0 : Nat) + 100) % UINT_MOD < CHUNK_FRAMES
          norm_num [UINT_MOD, CHUNK_FRAMES])]
    simp only [kf_session_create, List.length_replicate, List.nil_append,
      Session.mk.injEq]
    norm_num [UINT_MOD]
  · rfl

end KeyfinderC
